import Mathlib

/-!
Shallow embedding of the batch-query-chatbot repository core logic.

Source files embedded here:
  - the API route (generateFallbackResponse and the POST handler),
  - the chat page (validateQuery, validateImages, handleSendQuery),
  - the image-upload component (validateFile, handleFiles, removeImage, Clear All).

Modelling conventions, applied uniformly:
  - JavaScript strings become Lean String; `s.includes(pat)` becomes strIncludes,
    implemented by direct substring search on the character lists; `toLowerCase`
    becomes String.toLower (the queries involved are ASCII).
  - A browser File is modelled by the attributes the code reads: name, type
    (MIME string), size (bytes). The asynchronous fileToBase64 conversion is
    modelled by an `encoded : Option String` field on the candidate file:
    `some url` is a successful read, `none` a read failure (the promise reject).
  - Math.random identifiers are modelled by an oracle `freshId : Nat → String`
    passed to handleFiles; timestamps (Date) are elided since no logic reads them.
  - React setState calls become explicit state records; toast(...) calls become
    an emitted list of Toast values; the boolean returned alongside a state
    records whether a network request was issued by that call.
  - The external fetch / model-provider outcome is an explicit parameter, since
    the code branches only on its success or failure shape.
-/

/-- Character-list prefix test, used to implement JavaScript String.includes. -/
def charsPrefixOf : List Char → List Char → Bool
  | [], _ => true
  | _ :: _, [] => false
  | a :: as, b :: bs => a == b && charsPrefixOf as bs

/-- Substring search on character lists: does `pat` occur inside `s`? -/
def charsContains : List Char → List Char → Bool
  | [], pat => charsPrefixOf pat []
  | c :: rest, pat => charsPrefixOf pat (c :: rest) || charsContains rest pat

/-- JavaScript `s.includes(pat)`: substring containment. -/
def strIncludes (s pat : String) : Bool :=
  charsContains s.data pat.data

/-- JavaScript `s.toLowerCase()`: character-wise lowering (the code only
matches ASCII keywords). -/
def strToLower (s : String) : String :=
  String.mk (s.data.map Char.toLower)

/-- JavaScript `s.startsWith(pre)`. -/
def strStartsWith (s pre : String) : Bool :=
  charsPrefixOf pre.data s.data

/-- JavaScript `s.trim()`: strip whitespace from both ends. -/
def strTrim (s : String) : String :=
  String.mk (((s.data.dropWhile Char.isWhitespace).reverse.dropWhile Char.isWhitespace).reverse)

/-! ## Analysis endpoint: deterministic fallback generator (API route) -/

/-- The fixed count list from generateFallbackResponse. -/
def counts : List Nat := [3, 5, 2, 4, 1]

/-- The fixed palette-description list from generateFallbackResponse. -/
def colors : List String :=
  ["vibrant blue and red",
   "warm earth tones",
   "bright yellow and green",
   "soft pastels",
   "monochromatic gray"]

/-- The fixed generic-description list from generateFallbackResponse. -/
def descriptions : List String :=
  ["This appears to be a well-composed image with clear subject matter.",
   "The image shows good lighting and interesting visual elements.",
   "This image contains multiple objects arranged in an appealing way.",
   "The composition demonstrates good use of space and color balance.",
   "This image has strong visual appeal with clear focal points."]

/-- Body of one fallback line: the if-chain on the lowercased query from
generateFallbackResponse, for image number i (1-based). -/
def fallbackBody (query : String) (i : Nat) : String :=
  if strIncludes (strToLower query) "count" || strIncludes (strToLower query) "how many" then
    "I can see " ++ toString (counts.getD (i % counts.length) 0) ++ " items in this image."
  else if strIncludes (strToLower query) "color" then
    "The dominant colors are " ++ colors.getD (i % colors.length) "" ++ "."
  else if strIncludes (strToLower query) "text" || strIncludes (strToLower query) "read" then
    "I can detect some text elements, but would need a valid API connection for detailed text recognition."
  else
    descriptions.getD (i % descriptions.length) ""

/-- One full fallback line for image number i. -/
def fallbackLine (query : String) (i : Nat) : String :=
  "Image " ++ toString i ++ ": " ++ fallbackBody query i

/-- The fixed demo disclaimer appended by generateFallbackResponse. -/
def demoNote : String :=
  "*Note: This is a demo response. Connect a valid OpenAI API key for real AI analysis.*"

/-- generateFallbackResponse from the API route: the loop for i = 1..imageCount
pushes one line per image; the lines are joined with a blank line and the demo
disclaimer follows. -/
def generateFallbackResponse (query : String) (imageCount : Nat) : String :=
  String.intercalate "\n\n" ((List.range imageCount).map (fun k => fallbackLine query (k + 1)))
    ++ "\n\n" ++ demoNote

/-! ## Analysis endpoint: POST handler (API route) -/

/-- One element of the images array in the request body. -/
structure ImageRef where
  url : String
  name : String
deriving DecidableEq

/-- The parsed request body; `none` fields model absent JSON keys. -/
structure AnalyzeRequest where
  query : Option String
  images : Option (List ImageRef)
deriving DecidableEq

/-- Outcome of the generateText provider call: returned text, or a thrown
exception carrying a message. -/
inductive ProviderResult where
  | ok (text : String)
  | failure (message : String)
deriving DecidableEq

/-- Body of the HTTP response produced by the handler. -/
inductive ApiBody where
  | response (text : String)
  | error (message : String)
deriving DecidableEq

/-- The POST handler. Input `body` is `none` when request.json() throws
(malformed body; the outer catch returns 500 with an interpolated message,
abstracted here to a fixed string since no claim reads it). The returned
Bool records whether the model provider was invoked. -/
def POST (body : Option AnalyzeRequest) (provider : ProviderResult) :
    (Nat × ApiBody) × Bool :=
  match body with
  | none => ((500, ApiBody.error "Error analyzing images: Unknown error"), false)
  | some req =>
    match req.query, req.images with
    | some q, some imgs =>
      if q = "" ∨ imgs = [] then
        ((400, ApiBody.error "Query and images are required"), false)
      else
        match provider with
        | ProviderResult.ok text => ((200, ApiBody.response text), true)
        | ProviderResult.failure _ =>
          ((200, ApiBody.response (generateFallbackResponse q imgs.length)), true)
    | _, _ => ((400, ApiBody.error "Query and images are required"), false)

/-! ## Image Intake (image-upload component) -/

/-- A candidate file from the picker or drag-drop: the File attributes the code
reads, plus the modelled outcome of fileToBase64 (see header). -/
structure CandidateFile where
  name : String
  type : String
  size : Nat
  encoded : Option String
deriving DecidableEq

/-- UploadedImage from the source; the File handle is modelled by the byte size,
the only attribute read downstream (img.file.size). -/
structure UploadedImage where
  id : String
  fileSize : Nat
  url : String
  name : String
deriving DecidableEq

/-- State of the image-upload component: the active set and the inline error. -/
structure IntakeState where
  images : List UploadedImage
  uploadError : Option String
deriving DecidableEq

/-- A toast notification: title and description. -/
structure Toast where
  title : String
  description : String
deriving DecidableEq

/-- The maxImages prop: the page passes 4 (also the default). -/
def maxImages : Nat := 4

/-- The supported MIME types allow-list from validateFile. -/
def supportedTypes : List String :=
  ["image/jpeg", "image/jpg", "image/png", "image/gif", "image/webp"]

/-- validateFile from the image-upload component: type category, then size,
then format allow-list. The size message interpolates a one-decimal MB figure
via floating point in the source; the figure is abstracted from the message. -/
def validateFile (file : CandidateFile) : Option String :=
  if !(strStartsWith file.type "image/") then
    some (file.name ++ " is not a valid image file")
  else if file.size > 10 * 1024 * 1024 then
    some (file.name ++ " is too large. Maximum size is 10MB")
  else if !(supportedTypes.contains file.type) then
    some (file.name ++ " format not supported. Please use JPG, PNG, GIF, or WebP")
  else
    none

/-- One iteration of the per-file loop of handleFiles on the accumulated
accepted images and error strings: record the validation error, or encode and
accept the file under the next fresh identifier, or record the read failure. -/
def handleFilesStep (freshId : Nat → String)
    (acc : List UploadedImage × List String) (file : CandidateFile) :
    List UploadedImage × List String :=
  match validateFile file with
  | some err => (acc.1, acc.2 ++ [err])
  | none =>
    match file.encoded with
    | some url =>
      (acc.1 ++ [{ id := freshId acc.1.length, fileSize := file.size,
                   url := url, name := file.name }], acc.2)
    | none => (acc.1, acc.2 ++ ["Failed to process " ++ file.name])

/-- The per-file loop of handleFiles: fold the step over the batch in order. -/
def handleFilesLoop (freshId : Nat → String) (files : List CandidateFile)
    (acc : List UploadedImage × List String) :
    List UploadedImage × List String :=
  files.foldl (handleFilesStep freshId) acc

/-- The outcome of validating and encoding one candidate file, in the order the
loop records errors: a validation message, else a read-failure message, else
none for an accepted file. -/
def fileError (file : CandidateFile) : Option String :=
  match validateFile file with
  | some err => some err
  | none =>
    match file.encoded with
    | some _ => none
    | none => some ("Failed to process " ++ file.name)

/-- The error strings a batch produces, in file order. -/
def batchErrors (files : List CandidateFile) : List String :=
  files.filterMap fileError

/-- The capacity-exceeded inline message of handleFiles. -/
def capacityMsg (remainingSlots : Int) : String :=
  "Can only upload " ++ toString remainingSlots ++ " more image"
    ++ (if remainingSlots ≠ 1 then "s" else "")

/-- The newImages and errors arrays handleFiles has accumulated after its
per-file loop, starting from empty arrays. -/
def batchResult (freshId : Nat → String) (files : List CandidateFile) :
    List UploadedImage × List String :=
  handleFilesLoop freshId files ([], [])

/-- handleFiles from the image-upload component. Returns the new state and the
emitted toasts. The capacity comparison is on JavaScript numbers, so the
remaining-slots value is an Int (it is negative when more than maxImages are
already held); the source binds it to a local, inlined here. -/
def handleFiles (st : IntakeState) (freshId : Nat → String)
    (files : List CandidateFile) : IntakeState × List Toast :=
  if (files.length : Int) > (maxImages : Int) - (st.images.length : Int) then
    ({ st with
        uploadError := some (capacityMsg ((maxImages : Int) - (st.images.length : Int))) }, [])
  else if (batchResult freshId files).2.length > 0 then
    ({ st with uploadError := (batchResult freshId files).2.head? },
     [{ title := "Upload Error",
        description := toString (batchResult freshId files).2.length ++ " file"
          ++ (if (batchResult freshId files).2.length ≠ 1 then "s" else "")
          ++ " could not be uploaded" }])
  else if (batchResult freshId files).1.length > 0 then
    ({ images := st.images ++ (batchResult freshId files).1, uploadError := none },
     [{ title := "Upload Successful",
        description := toString (batchResult freshId files).1.length ++ " image"
          ++ (if (batchResult freshId files).1.length ≠ 1 then "s" else "")
          ++ " uploaded successfully" }])
  else
    ({ st with uploadError := none }, [])

/-- removeImage from the image-upload component: filter out the matching id,
clear the inline error, toast unconditionally. -/
def removeImage (st : IntakeState) (id : String) : IntakeState × List Toast :=
  ({ images := st.images.filter (fun img => !(img.id == id)), uploadError := none },
   [{ title := "Image Removed", description := "Image has been removed from upload" }])

/-- The Clear All button handler: empty the set, clear the error, toast. -/
def clearImages (_st : IntakeState) : IntakeState × List Toast :=
  ({ images := [], uploadError := none },
   [{ title := "Images Cleared", description := "All images have been removed" }])

/-- One user-driven Image Intake operation. -/
inductive IntakeOp where
  | upload (freshId : Nat → String) (files : List CandidateFile)
  | remove (id : String)
  | clear

/-- Apply one Image Intake operation to the component state. -/
def applyOp (st : IntakeState) : IntakeOp → IntakeState
  | IntakeOp.upload freshId files => (handleFiles st freshId files).1
  | IntakeOp.remove id => (removeImage st id).1
  | IntakeOp.clear => (clearImages st).1

/-- Run a sequence of Image Intake operations from a starting state. -/
def runOps (ops : List IntakeOp) (st : IntakeState) : IntakeState :=
  ops.foldl applyOp st

/-- The safety invariant of the active image set: at most 4 images, each of
byte size at most 10 MiB. -/
def IntakeInv (st : IntakeState) : Prop :=
  st.images.length ≤ 4 ∧ ∀ img ∈ st.images, img.fileSize ≤ 10 * 1024 * 1024

/-- A deterministic identifier oracle for concrete test inputs. -/
def seqId : Nat → String := fun n => toString n

/-- A valid PNG candidate file of the given name, used in concrete tests. -/
def pngFile (nm : String) : CandidateFile :=
  { name := nm, type := "image/png", size := 10, encoded := some "data" }

/-- A candidate file failing the image-category check, used in concrete tests. -/
def textFile : CandidateFile :=
  { name := "a.txt", type := "text/plain", size := 10, encoded := some "data" }

/-- A five-file batch whose first member is invalid: one more file than an
empty active set can take. -/
def overCapacityBatch : List CandidateFile :=
  [textFile, pngFile "b.png", pngFile "c.png", pngFile "d.png", pngFile "e.png"]

/-- A two-file batch within capacity whose first member is invalid. -/
def mixedBatch : List CandidateFile :=
  [textFile, pngFile "b.png"]

/-- A five-file batch of individually valid files: one more file than an
empty active set can take. -/
def fivePngBatch : List CandidateFile :=
  [pngFile "p1.png", pngFile "p2.png", pngFile "p3.png", pngFile "p4.png", pngFile "p5.png"]

/-- A two-file batch of valid files, used in concrete tests. -/
def twoPngBatch : List CandidateFile :=
  [pngFile "p1.png", pngFile "p2.png"]

/-! ## Query Orchestrator (chat page) -/

/-- The three transcript entry kinds. -/
inductive MessageType where
  | user
  | bot
  | error
deriving DecidableEq

/-- ChatMessage from the page; the Math.random id and the Date timestamp are
elided since no logic reads them (see header). -/
structure ChatMessage where
  type : MessageType
  content : String
  images : Option (List UploadedImage)
deriving DecidableEq

/-- The page component state touched by handleSendQuery. -/
structure ClientState where
  images : List UploadedImage
  query : String
  messages : List ChatMessage
  error : Option String
  isProcessing : Bool
deriving DecidableEq

/-- Outcome of the fetch to the analyze endpoint, as the page distinguishes it:
an ok response carrying the analysis text, a non-ok response whose JSON error
field is read (empty string models a falsy field), or a thrown exception whose
message is read. -/
inductive FetchOutcome where
  | ok (response : String)
  | httpError (errorField : String)
  | thrown (message : String)
deriving DecidableEq

/-- validateQuery from the page: blank after trim, then length under 3, then
length over 500. -/
def validateQuery (queryText : String) : Option String :=
  if strTrim queryText = "" then
    some "Please enter a question about your images"
  else if queryText.length < 3 then
    some "Query must be at least 3 characters long"
  else if queryText.length > 500 then
    some "Query must be less than 500 characters"
  else
    none

/-- validateImages from the page: empty list, then over 4, then a size scan
naming every oversized image. -/
def validateImages (imageList : List UploadedImage) : Option String :=
  if imageList.length = 0 then
    some "Please upload at least one image before asking a question"
  else if imageList.length > 4 then
    some "Maximum 4 images allowed"
  else
    let oversizedImages := imageList.filter (fun img => img.fileSize > 10 * 1024 * 1024)
    if oversizedImages.length > 0 then
      some ("Image(s) too large: " ++ String.intercalate ", " (oversizedImages.map (fun img => img.name))
        ++ ". Maximum size is 10MB per image.")
    else
      none

/-- handleSendQuery from the page. Returns the new state, whether a network
request was issued, and the emitted toasts. The fetch outcome is a parameter
consumed only after validation passes. -/
def handleSendQuery (st : ClientState) (net : FetchOutcome) :
    ClientState × Bool × List Toast :=
  match validateQuery st.query with
  | some e => ({ st with error := some e }, false, [])
  | none =>
    match validateImages st.images with
    | some e => ({ st with error := some e }, false, [])
    | none =>
      let userMessage : ChatMessage :=
        { type := MessageType.user, content := st.query, images := some st.images }
      let st1 : ClientState :=
        { st with error := none, messages := st.messages ++ [userMessage], isProcessing := true }
      match net with
      | FetchOutcome.ok text =>
        ({ st1 with
            messages := st1.messages ++ [{ type := MessageType.bot, content := text, images := none }],
            query := "", isProcessing := false },
         true,
         [{ title := "Analysis Complete",
            description := "Successfully analyzed " ++ toString st.images.length ++ " image"
              ++ (if st.images.length > 1 then "s" else "") }])
      | FetchOutcome.httpError errorField =>
        let msg := if errorField = "" then "Failed to analyze images" else errorField
        ({ st1 with
            messages := st1.messages ++ [{ type := MessageType.error, content := msg, images := none }],
            isProcessing := false },
         true,
         [{ title := "Analysis Failed",
            description := "There was an error processing your request" }])
      | FetchOutcome.thrown message =>
        ({ st1 with
            messages := st1.messages ++ [{ type := MessageType.error, content := message, images := none }],
            isProcessing := false },
         true,
         [{ title := "Analysis Failed",
            description := "There was an error processing your request" }])

/-- A concrete page state passing both validations, used in concrete tests. -/
def stWitness : ClientState :=
  { images := [{ id := "i1", fileSize := 5, url := "u", name := "n" }],
    query := "abc", messages := [], error := none, isProcessing := false }

/-- A concrete one-image intake state, used in concrete tests. -/
def stOneImage : IntakeState :=
  { images := [{ id := "a", fileSize := 5, url := "u", name := "n" }], uploadError := none }

/-! ## Helper lemmas -/

/-- A file passing validateFile is within the 10 MiB size bound. -/
theorem validateFile_none_size {f : CandidateFile} (h : validateFile f = none) :
    f.size ≤ 10 * 1024 * 1024 := by
  unfold validateFile at h
  split at h
  · exact absurd h (by simp)
  · split at h
    · exact absurd h (by simp)
    · next hsize _ => omega

/-- Step equation: an invalid file appends its error. -/
theorem handleFilesStep_invalid (freshId : Nat → String)
    (acc : List UploadedImage × List String) {file : CandidateFile}
    {err : String} (hv : validateFile file = some err) :
    handleFilesStep freshId acc file = (acc.1, acc.2 ++ [err]) := by
  unfold handleFilesStep
  rw [hv]

/-- Step equation: a valid, encodable file appends an accepted image. -/
theorem handleFilesStep_accept (freshId : Nat → String)
    (acc : List UploadedImage × List String) {file : CandidateFile}
    {url : String} (hv : validateFile file = none) (he : file.encoded = some url) :
    handleFilesStep freshId acc file
      = (acc.1 ++ [{ id := freshId acc.1.length, fileSize := file.size,
                     url := url, name := file.name }], acc.2) := by
  unfold handleFilesStep
  rw [hv, he]

/-- Step equation: a valid file whose read fails appends a processing error. -/
theorem handleFilesStep_readfail (freshId : Nat → String)
    (acc : List UploadedImage × List String) {file : CandidateFile}
    (hv : validateFile file = none) (he : file.encoded = none) :
    handleFilesStep freshId acc file
      = (acc.1, acc.2 ++ ["Failed to process " ++ file.name]) := by
  unfold handleFilesStep
  rw [hv, he]

/-- fileError on an invalid file is its validation error. -/
theorem fileError_invalid {file : CandidateFile} {err : String}
    (hv : validateFile file = some err) : fileError file = some err := by
  unfold fileError
  rw [hv]

/-- fileError on a valid, encodable file is none. -/
theorem fileError_accept {file : CandidateFile} {url : String}
    (hv : validateFile file = none) (he : file.encoded = some url) :
    fileError file = none := by
  unfold fileError
  rw [hv, he]

/-- fileError on a valid file with a failed read is the processing error. -/
theorem fileError_readfail {file : CandidateFile}
    (hv : validateFile file = none) (he : file.encoded = none) :
    fileError file = some ("Failed to process " ++ file.name) := by
  unfold fileError
  rw [hv, he]

/-- batchErrors distributes over cons by the outcome of fileError. -/
theorem batchErrors_cons_some {file : CandidateFile} {e : String}
    (rest : List CandidateFile) (h : fileError file = some e) :
    batchErrors (file :: rest) = e :: batchErrors rest := by
  simp [batchErrors, List.filterMap_cons, h]

/-- batchErrors skips a file with no error. -/
theorem batchErrors_cons_none {file : CandidateFile}
    (rest : List CandidateFile) (h : fileError file = none) :
    batchErrors (file :: rest) = batchErrors rest := by
  simp [batchErrors, List.filterMap_cons, h]

/-- Unfolding equation: the loop on an empty batch returns the accumulator. -/
theorem handleFilesLoop_nil (freshId : Nat → String)
    (acc : List UploadedImage × List String) :
    handleFilesLoop freshId [] acc = acc := by
  unfold handleFilesLoop
  rw [List.foldl_nil]

/-- Unfolding equation: the loop on a cons first processes the head file. -/
theorem handleFilesLoop_cons (freshId : Nat → String) (file : CandidateFile)
    (rest : List CandidateFile) (acc : List UploadedImage × List String) :
    handleFilesLoop freshId (file :: rest) acc
      = handleFilesLoop freshId rest (handleFilesStep freshId acc file) := by
  unfold handleFilesLoop
  rw [List.foldl_cons]

/-- The error component of the handleFiles loop is the accumulated errors
followed by the batch errors, in file order. -/
theorem handleFilesLoop_errors (freshId : Nat → String) (files : List CandidateFile)
    (acc : List UploadedImage × List String) :
    (handleFilesLoop freshId files acc).2 = acc.2 ++ batchErrors files := by
  induction files generalizing acc with
  | nil => rw [handleFilesLoop_nil]; simp [batchErrors]
  | cons file rest ih =>
    rw [handleFilesLoop_cons]
    cases hv : validateFile file with
    | some err =>
      rw [handleFilesStep_invalid freshId acc hv, ih,
        batchErrors_cons_some rest (fileError_invalid hv)]
      simp
    | none =>
      cases he : file.encoded with
      | some url =>
        rw [handleFilesStep_accept freshId acc hv he, ih,
          batchErrors_cons_none rest (fileError_accept hv he)]
      | none =>
        rw [handleFilesStep_readfail freshId acc hv he, ih,
          batchErrors_cons_some rest (fileError_readfail hv he)]
        simp

/-- With no batch errors, the loop appends one accepted image per file, whose
names are the file names in order. -/
theorem handleFilesLoop_names (freshId : Nat → String) (files : List CandidateFile)
    (acc : List UploadedImage × List String) (h : batchErrors files = []) :
    (handleFilesLoop freshId files acc).1.map (fun img => img.name)
      = acc.1.map (fun img => img.name) ++ files.map (fun f => f.name) := by
  induction files generalizing acc with
  | nil => rw [handleFilesLoop_nil]; simp
  | cons file rest ih =>
    have hfe : fileError file = none := by
      cases hf : fileError file with
      | some e => rw [batchErrors_cons_some rest hf] at h; exact absurd h (by simp)
      | none => rfl
    have hrest : batchErrors rest = [] := by
      rw [batchErrors_cons_none rest hfe] at h; exact h
    have hv : validateFile file = none := by
      cases hv : validateFile file with
      | some e => rw [fileError_invalid hv] at hfe; exact absurd hfe (by simp)
      | none => rfl
    obtain ⟨url, he⟩ : ∃ url, file.encoded = some url := by
      cases he : file.encoded with
      | some url => exact ⟨url, rfl⟩
      | none => rw [fileError_readfail hv he] at hfe; exact absurd hfe (by simp)
    rw [handleFilesLoop_cons, handleFilesStep_accept freshId acc hv he, ih _ hrest]
    simp

/-- The loop accepts at most one image per file. -/
theorem handleFilesLoop_length_le (freshId : Nat → String) (files : List CandidateFile)
    (acc : List UploadedImage × List String) :
    (handleFilesLoop freshId files acc).1.length ≤ acc.1.length + files.length := by
  induction files generalizing acc with
  | nil => rw [handleFilesLoop_nil]; simp
  | cons file rest ih =>
    rw [handleFilesLoop_cons]
    have h1 := ih (handleFilesStep freshId acc file)
    have h2 : (handleFilesStep freshId acc file).1.length ≤ acc.1.length + 1 := by
      cases hv : validateFile file with
      | some err =>
        rw [handleFilesStep_invalid freshId acc hv]
        exact Nat.le_succ_of_le (Nat.le_refl _)
      | none =>
        cases he : file.encoded with
        | some url =>
          rw [handleFilesStep_accept freshId acc hv he]
          simp
        | none =>
          rw [handleFilesStep_readfail freshId acc hv he]
          exact Nat.le_succ_of_le (Nat.le_refl _)
    simp only [List.length_cons]
    omega

/-- Every image the loop returns is either carried over from the accumulator
or came from a file that passed validation, hence is within the size bound. -/
theorem handleFilesLoop_mem_size (freshId : Nat → String) (files : List CandidateFile)
    (acc : List UploadedImage × List String) (img : UploadedImage)
    (h : img ∈ (handleFilesLoop freshId files acc).1) :
    img ∈ acc.1 ∨ img.fileSize ≤ 10 * 1024 * 1024 := by
  induction files generalizing acc with
  | nil =>
    rw [handleFilesLoop_nil] at h
    exact Or.inl h
  | cons file rest ih =>
    rw [handleFilesLoop_cons] at h
    have hmem := ih (handleFilesStep freshId acc file) h
    cases hv : validateFile file with
    | some err =>
      rw [handleFilesStep_invalid freshId acc hv] at hmem
      exact hmem
    | none =>
      cases he : file.encoded with
      | some url =>
        rw [handleFilesStep_accept freshId acc hv he] at hmem
        rcases hmem with hin | hsz
        · rcases List.mem_append.mp hin with hold | hnew
          · exact Or.inl hold
          · right
            have heq : img.fileSize = file.size := by
              simp at hnew
              rw [hnew]
            rw [heq]
            exact validateFile_none_size hv
        · exact Or.inr hsz
      | none =>
        rw [handleFilesStep_readfail freshId acc hv he] at hmem
        exact hmem

/-- Generic counting fact: removing the elements satisfying p leaves
length minus the count of p. -/
theorem length_filter_not_add_countP {α : Type} (l : List α) (p : α → Bool) :
    (l.filter (fun a => !(p a))).length + l.countP p = l.length := by
  induction l with
  | nil => simp
  | cons a t ih =>
    by_cases h : p a = true
    · simp [List.filter_cons, List.countP_cons, h]
      omega
    · simp [List.filter_cons, List.countP_cons, h]
      omega

/-- The error array of a batch run is exactly batchErrors. -/
theorem batchResult_errors (freshId : Nat → String) (files : List CandidateFile) :
    (batchResult freshId files).2 = batchErrors files := by
  unfold batchResult
  rw [handleFilesLoop_errors]
  simp

/-- With no batch errors, the accepted images carry the file names in order. -/
theorem batchResult_names (freshId : Nat → String) (files : List CandidateFile)
    (h : batchErrors files = []) :
    (batchResult freshId files).1.map (fun img => img.name)
      = files.map (fun f => f.name) := by
  unfold batchResult
  rw [handleFilesLoop_names freshId files _ h]
  simp

/-- With no batch errors, one image is accepted per file. -/
theorem batchResult_length (freshId : Nat → String) (files : List CandidateFile)
    (h : batchErrors files = []) :
    (batchResult freshId files).1.length = files.length := by
  have hn := congrArg List.length (batchResult_names freshId files h)
  simpa using hn

/-- Every accepted image of a batch run is within the 10 MiB size bound. -/
theorem batchResult_mem_size (freshId : Nat → String) (files : List CandidateFile)
    (img : UploadedImage) (h : img ∈ (batchResult freshId files).1) :
    img.fileSize ≤ 10 * 1024 * 1024 := by
  unfold batchResult at h
  rcases handleFilesLoop_mem_size freshId files ([], []) img h with hin | hsz
  · exact absurd hin (by simp)
  · exact hsz

/-- Branch equation: a batch larger than the remaining capacity is rejected
with the capacity message and no toast. -/
theorem handleFiles_over (st : IntakeState) (freshId : Nat → String)
    (files : List CandidateFile)
    (h : (files.length : Int) > (maxImages : Int) - (st.images.length : Int)) :
    handleFiles st freshId files =
      ({ st with
          uploadError := some (capacityMsg ((maxImages : Int) - (st.images.length : Int))) },
       []) := by
  unfold handleFiles
  rw [if_pos h]

/-- Branch equation: an in-capacity batch with at least one error discards the
batch, surfaces the first error, and toasts the error count. -/
theorem handleFiles_err (st : IntakeState) (freshId : Nat → String)
    (files : List CandidateFile)
    (hcap : ¬ ((files.length : Int) > (maxImages : Int) - (st.images.length : Int)))
    (herr : batchErrors files ≠ []) :
    handleFiles st freshId files =
      ({ st with uploadError := (batchErrors files).head? },
       [{ title := "Upload Error",
          description := toString (batchErrors files).length ++ " file"
            ++ (if (batchErrors files).length ≠ 1 then "s" else "")
            ++ " could not be uploaded" }]) := by
  unfold handleFiles
  rw [if_neg hcap, batchResult_errors, if_pos (List.length_pos.mpr herr)]

/-- Branch equation: an in-capacity, all-accepted, non-empty batch is appended
to the active set with a success toast. -/
theorem handleFiles_ok (st : IntakeState) (freshId : Nat → String)
    (files : List CandidateFile)
    (hcap : ¬ ((files.length : Int) > (maxImages : Int) - (st.images.length : Int)))
    (herr : batchErrors files = []) (hne : files ≠ []) :
    handleFiles st freshId files =
      ({ images := st.images ++ (batchResult freshId files).1, uploadError := none },
       [{ title := "Upload Successful",
          description := toString files.length ++ " image"
            ++ (if files.length ≠ 1 then "s" else "") ++ " uploaded successfully" }]) := by
  unfold handleFiles
  rw [if_neg hcap, batchResult_errors, if_neg (by simp [herr]),
    batchResult_length freshId files herr, if_pos (List.length_pos.mpr hne)]

/-- Branch equation: an empty batch within capacity only clears the error. -/
theorem handleFiles_empty (st : IntakeState) (freshId : Nat → String)
    (hcap : ¬ ((([] : List CandidateFile).length : Int)
      > (maxImages : Int) - (st.images.length : Int))) :
    handleFiles st freshId [] = ({ st with uploadError := none }, []) := by
  unfold handleFiles
  have hres : batchResult freshId [] = ([], []) := by
    unfold batchResult
    exact handleFilesLoop_nil _ _
  rw [if_neg hcap, batchResult_errors, if_neg (by simp [batchErrors]), hres]
  simp

/-- validateQuery on a query blank after trimming. -/
theorem validateQuery_blank {q : String} (h : strTrim q = "") :
    validateQuery q = some "Please enter a question about your images" := by
  unfold validateQuery
  rw [if_pos h]

/-- validateQuery on a non-blank query shorter than 3 characters. -/
theorem validateQuery_short {q : String} (h1 : strTrim q ≠ "") (h2 : q.length < 3) :
    validateQuery q = some "Query must be at least 3 characters long" := by
  unfold validateQuery
  rw [if_neg h1, if_pos h2]

/-- validateQuery on a non-blank query longer than 500 characters. -/
theorem validateQuery_long {q : String} (h1 : strTrim q ≠ "") (h2 : ¬ q.length < 3)
    (h3 : q.length > 500) :
    validateQuery q = some "Query must be less than 500 characters" := by
  unfold validateQuery
  rw [if_neg h1, if_neg h2, if_pos h3]

/-- handleSendQuery on a query failing validation: only the inline error is
set, no message is appended, no request is issued, no toast is emitted. -/
theorem handleSendQuery_vq_fail (st : ClientState) (net : FetchOutcome) {e : String}
    (h : validateQuery st.query = some e) :
    handleSendQuery st net = ({ st with error := some e }, false, []) := by
  unfold handleSendQuery
  rw [h]

/-- handleSendQuery on an image set failing validation: only the inline error
is set, no message is appended, no request is issued, no toast is emitted. -/
theorem handleSendQuery_vi_fail (st : ClientState) (net : FetchOutcome) {e : String}
    (hq : validateQuery st.query = none) (h : validateImages st.images = some e) :
    handleSendQuery st net = ({ st with error := some e }, false, []) := by
  unfold handleSendQuery
  rw [hq, h]

/-- handleSendQuery on passing validation and an ok response: the user and bot
messages are appended, the input is cleared, and a success toast is emitted. -/
theorem handleSendQuery_ok (st : ClientState) (text : String)
    (hq : validateQuery st.query = none) (hi : validateImages st.images = none) :
    handleSendQuery st (FetchOutcome.ok text) =
      ({ st with
          error := none
          messages := st.messages
            ++ [{ type := MessageType.user, content := st.query, images := some st.images },
                { type := MessageType.bot, content := text, images := none }]
          query := ""
          isProcessing := false },
       true,
       [{ title := "Analysis Complete",
          description := "Successfully analyzed " ++ toString st.images.length ++ " image"
            ++ (if st.images.length > 1 then "s" else "") }]) := by
  unfold handleSendQuery
  rw [hq, hi]
  simp

/-- A member with a validation error forces a nonempty error list. -/
theorem batchErrors_ne_of_invalid {files : List CandidateFile} {f : CandidateFile}
    (hf : f ∈ files) (hv : validateFile f ≠ none) : batchErrors files ≠ [] := by
  intro hnil
  unfold batchErrors at hnil
  have hfe := List.filterMap_eq_nil_iff.mp hnil f hf
  cases hvv : validateFile f with
  | some e => rw [fileError_invalid hvv] at hfe; exact absurd hfe (by simp)
  | none => exact hv hvv

/-- An all-valid, all-encodable batch produces no errors. -/
theorem batchErrors_nil_of_ok {files : List CandidateFile}
    (hok : ∀ f ∈ files, validateFile f = none ∧ f.encoded ≠ none) :
    batchErrors files = [] := by
  unfold batchErrors
  rw [List.filterMap_eq_nil_iff]
  intro f hf
  obtain ⟨hv, he⟩ := hok f hf
  cases hee : f.encoded with
  | some url => exact fileError_accept hv hee
  | none => exact absurd hee he

/-- Unfolding equation: running no Image Intake operations is the identity. -/
theorem runOps_nil (st : IntakeState) : runOps [] st = st := by
  unfold runOps
  rw [List.foldl_nil]

/-- Unfolding equation: running a cons of operations applies the head first. -/
theorem runOps_cons (op : IntakeOp) (rest : List IntakeOp) (st : IntakeState) :
    runOps (op :: rest) st = runOps rest (applyOp st op) := by
  unfold runOps
  rw [List.foldl_cons]

/-- Every single Image Intake operation preserves the safety invariant. -/
theorem applyOp_inv (st : IntakeState) (op : IntakeOp) (h : IntakeInv st) :
    IntakeInv (applyOp st op) := by
  obtain ⟨hlen, hsz⟩ := h
  cases op with
  | clear =>
    show IntakeInv (clearImages st).1
    exact ⟨by simp [clearImages], by simp [clearImages]⟩
  | remove id =>
    show IntakeInv (removeImage st id).1
    constructor
    · have hle : (st.images.filter (fun img => !(img.id == id))).length ≤ st.images.length :=
        List.length_filter_le _ _
      show (st.images.filter (fun img => !(img.id == id))).length ≤ 4
      omega
    · intro img hm
      exact hsz img (List.mem_of_mem_filter hm)
  | upload freshId files =>
    show IntakeInv (handleFiles st freshId files).1
    by_cases hcap : (files.length : Int) > (maxImages : Int) - (st.images.length : Int)
    · rw [handleFiles_over st freshId files hcap]
      exact ⟨hlen, hsz⟩
    · by_cases herr : batchErrors files = []
      · by_cases hne : files = []
        · subst hne
          rw [handleFiles_empty st freshId hcap]
          exact ⟨hlen, hsz⟩
        · rw [handleFiles_ok st freshId files hcap herr hne]
          constructor
          · show (st.images ++ (batchResult freshId files).1).length ≤ 4
            rw [List.length_append, batchResult_length freshId files herr]
            have hle : (files.length : Int) ≤ (maxImages : Int) - (st.images.length : Int) :=
              not_lt.mp hcap
            have h4 : (maxImages : Int) = 4 := rfl
            rw [h4] at hle
            omega
          · intro img hm
            rcases List.mem_append.mp hm with h1 | h2
            · exact hsz img h1
            · exact batchResult_mem_size freshId files img h2
      · rw [handleFiles_err st freshId files hcap herr]
        exact ⟨hlen, hsz⟩

/-- Any sequence of Image Intake operations preserves the safety invariant. -/
theorem runOps_inv (ops : List IntakeOp) (st : IntakeState) (h : IntakeInv st) :
    IntakeInv (runOps ops st) := by
  induction ops generalizing st with
  | nil => rw [runOps_nil]; exact h
  | cons op rest ih => rw [runOps_cons]; exact ih _ (applyOp_inv st op h)

/-! ## Claim theorems -/

set_option maxRecDepth 8192 in
/-- C1: for every query and imageCount at least 1, the fallback generator
emits one line "Image i: " per i = 1..imageCount joined by blank lines and
followed by the fixed demo disclaimer; the body of each line is chosen by
keyword priority on the lowercased query (count or how many, else color, else
text or read, else generic), cycling branches indexing their 5-element list at
i mod 5 with i starting at 1; in particular the query about counts with 7
images uses list index 1 on line 6, and the colors query with 2 images starts
with the warm earth tones line followed by the third palette entry. -/
theorem C1_fallback_generator (query : String) (n : Nat) (h : 1 ≤ n) :
    generateFallbackResponse query n =
      String.intercalate "\n\n"
        ((List.range n).map (fun k => "Image " ++ toString (k + 1) ++ ": " ++ fallbackBody query (k + 1)))
        ++ "\n\n" ++ demoNote
    ∧ ((List.range n).map (fun k => fallbackLine query (k + 1))).length = n
    ∧ (∀ i : Nat, ((strIncludes (strToLower query) "count" || strIncludes (strToLower query) "how many") = true) →
        fallbackBody query i = "I can see " ++ toString (counts.getD (i % 5) 0) ++ " items in this image.")
    ∧ (∀ i : Nat, ((strIncludes (strToLower query) "count" || strIncludes (strToLower query) "how many") = false) →
        (strIncludes (strToLower query) "color" = true) →
        fallbackBody query i = "The dominant colors are " ++ colors.getD (i % 5) "" ++ ".")
    ∧ (∀ i : Nat, ((strIncludes (strToLower query) "count" || strIncludes (strToLower query) "how many") = false) →
        (strIncludes (strToLower query) "color" = false) →
        ((strIncludes (strToLower query) "text" || strIncludes (strToLower query) "read") = true) →
        fallbackBody query i = "I can detect some text elements, but would need a valid API connection for detailed text recognition.")
    ∧ (∀ i : Nat, ((strIncludes (strToLower query) "count" || strIncludes (strToLower query) "how many") = false) →
        (strIncludes (strToLower query) "color" = false) →
        ((strIncludes (strToLower query) "text" || strIncludes (strToLower query) "read") = false) →
        fallbackBody query i = descriptions.getD (i % 5) "")
    ∧ generateFallbackResponse "How many items?" 7 = "Image 1: I can see 5 items in this image.\n\nImage 2: I can see 2 items in this image.\n\nImage 3: I can see 4 items in this image.\n\nImage 4: I can see 1 items in this image.\n\nImage 5: I can see 3 items in this image.\n\nImage 6: I can see 5 items in this image.\n\nImage 7: I can see 2 items in this image.\n\n*Note: This is a demo response. Connect a valid OpenAI API key for real AI analysis.*"
    ∧ fallbackLine "How many items?" 6 = "Image 6: I can see 5 items in this image."
    ∧ generateFallbackResponse "What colors?" 2 = "Image 1: The dominant colors are warm earth tones.\n\nImage 2: The dominant colors are bright yellow and green.\n\n*Note: This is a demo response. Connect a valid OpenAI API key for real AI analysis.*" := by
  refine ⟨?_, ?_, ?_, ?_, ?_, ?_, ?_, ?_, ?_⟩
  · unfold generateFallbackResponse
    simp only [fallbackLine]
  · simp
  · intro i hc
    unfold fallbackBody
    rw [hc, if_pos rfl, show counts.length = 5 from rfl]
  · intro i h1 h2
    unfold fallbackBody
    rw [h1, if_neg (by decide), h2, if_pos rfl, show colors.length = 5 from rfl]
  · intro i h1 h2 h3
    unfold fallbackBody
    rw [h1, if_neg (by decide), h2, if_neg (by decide), h3, if_pos rfl]
  · intro i h1 h2 h3
    unfold fallbackBody
    rw [h1, if_neg (by decide), h2, if_neg (by decide), h3, if_neg (by decide),
      show descriptions.length = 5 from rfl]
  · decide
  · decide
  · decide

set_option maxRecDepth 8192 in
/-- Witness for C1 at the concrete count query with 7 images. -/
theorem C1_fallback_generator_witness :
    1 ≤ 7 ∧ generateFallbackResponse "How many items?" 7 = "Image 1: I can see 5 items in this image.\n\nImage 2: I can see 2 items in this image.\n\nImage 3: I can see 4 items in this image.\n\nImage 4: I can see 1 items in this image.\n\nImage 5: I can see 3 items in this image.\n\nImage 6: I can see 5 items in this image.\n\nImage 7: I can see 2 items in this image.\n\n*Note: This is a demo response. Connect a valid OpenAI API key for real AI analysis.*" :=
  ⟨by decide, (C1_fallback_generator "How many items?" 7 (by decide)).2.2.2.2.2.2.1⟩

/-- C2: a query blank after trimming fails with the empty-query message, a
non-blank query under 3 characters fails with the too-short message, one over
500 characters fails with the too-long message; in each case, and for every
query of length under 3 or over 500, the transcript is unchanged and no
network request is issued. -/
theorem C2_query_validation (st : ClientState) (net : FetchOutcome) :
    (strTrim st.query = "" →
      handleSendQuery st net =
        ({ st with error := some "Please enter a question about your images" }, false, []))
    ∧ (strTrim st.query ≠ "" → st.query.length < 3 →
      handleSendQuery st net =
        ({ st with error := some "Query must be at least 3 characters long" }, false, []))
    ∧ (strTrim st.query ≠ "" → ¬ st.query.length < 3 → st.query.length > 500 →
      handleSendQuery st net =
        ({ st with error := some "Query must be less than 500 characters" }, false, []))
    ∧ ((st.query.length < 3 ∨ st.query.length > 500) →
      validateQuery st.query ≠ none
      ∧ (handleSendQuery st net).1.messages = st.messages
      ∧ (handleSendQuery st net).2.1 = false) := by
  refine ⟨?_, ?_, ?_, ?_⟩
  · intro h
    exact handleSendQuery_vq_fail st net (validateQuery_blank h)
  · intro h1 h2
    exact handleSendQuery_vq_fail st net (validateQuery_short h1 h2)
  · intro h1 h2 h3
    exact handleSendQuery_vq_fail st net (validateQuery_long h1 h2 h3)
  · intro h
    have hv : validateQuery st.query ≠ none := by
      by_cases hb : strTrim st.query = ""
      · rw [validateQuery_blank hb]; simp
      · rcases h with h | h
        · rw [validateQuery_short hb h]; simp
        · rw [validateQuery_long hb (by omega) h]; simp
    refine ⟨hv, ?_, ?_⟩
    · cases hvv : validateQuery st.query with
      | none => exact absurd hvv hv
      | some e => rw [handleSendQuery_vq_fail st net hvv]
    · cases hvv : validateQuery st.query with
      | none => exact absurd hvv hv
      | some e => rw [handleSendQuery_vq_fail st net hvv]

set_option maxRecDepth 4096 in
/-- Witness for C2 at a blank query, a short query, and a long query. -/
theorem C2_query_validation_witness :
    handleSendQuery { images := [], query := "", messages := [], error := none, isProcessing := false }
        (FetchOutcome.ok "t")
      = ({ images := [], query := "", messages := [],
           error := some "Please enter a question about your images", isProcessing := false },
         false, [])
    ∧ handleSendQuery { images := [], query := "ab", messages := [], error := none, isProcessing := false }
        (FetchOutcome.ok "t")
      = ({ images := [], query := "ab", messages := [],
           error := some "Query must be at least 3 characters long", isProcessing := false },
         false, [])
    ∧ validateQuery (String.mk (List.replicate 501 'a')) ≠ none :=
  ⟨(C2_query_validation
      { images := [], query := "", messages := [], error := none, isProcessing := false }
      (FetchOutcome.ok "t")).1 (by decide),
   (C2_query_validation
      { images := [], query := "ab", messages := [], error := none, isProcessing := false }
      (FetchOutcome.ok "t")).2.1 (by decide) (by decide),
   ((C2_query_validation
      { images := [], query := String.mk (List.replicate 501 'a'), messages := [],
        error := none, isProcessing := false }
      (FetchOutcome.ok "t")).2.2.2 (by decide)).1⟩

/-- C10: on a successful analysis response, send appends the user entry and
exactly one bot entry, clears the query input, and leaves the active image
set unchanged. -/
theorem C10_success_frame (st : ClientState) (text : String)
    (hq : validateQuery st.query = none) (hi : validateImages st.images = none) :
    handleSendQuery st (FetchOutcome.ok text) =
      ({ st with
          error := none
          messages := st.messages
            ++ [{ type := MessageType.user, content := st.query, images := some st.images },
                { type := MessageType.bot, content := text, images := none }]
          query := ""
          isProcessing := false },
       true,
       [{ title := "Analysis Complete",
          description := "Successfully analyzed " ++ toString st.images.length ++ " image"
            ++ (if st.images.length > 1 then "s" else "") }])
    ∧ ((handleSendQuery st (FetchOutcome.ok text)).1.messages.countP
          (fun m => m.type == MessageType.bot))
        = st.messages.countP (fun m => m.type == MessageType.bot) + 1
    ∧ (handleSendQuery st (FetchOutcome.ok text)).1.images = st.images
    ∧ (handleSendQuery st (FetchOutcome.ok text)).1.query = "" := by
  have he := handleSendQuery_ok st text hq hi
  refine ⟨he, ?_, by rw [he], by rw [he]⟩
  rw [he]
  show (st.messages
      ++ [({ type := MessageType.user, content := st.query, images := some st.images } : ChatMessage),
          ({ type := MessageType.bot, content := text, images := none } : ChatMessage)]).countP
        (fun m => m.type == MessageType.bot)
    = st.messages.countP (fun m => m.type == MessageType.bot) + 1
  rw [List.countP_append]
  have hone : (List.countP (fun m => m.type == MessageType.bot)
      [({ type := MessageType.user, content := st.query, images := some st.images } : ChatMessage),
       { type := MessageType.bot, content := text, images := none }]) = 1 := rfl
  rw [hone]

/-- Witness for C10 at a concrete valid state and response. -/
theorem C10_success_frame_witness :
    validateQuery stWitness.query = none
    ∧ validateImages stWitness.images = none
    ∧ (handleSendQuery stWitness (FetchOutcome.ok "hi")).1.images = stWitness.images
    ∧ (handleSendQuery stWitness (FetchOutcome.ok "hi")).1.query = "" :=
  ⟨by decide, by decide,
   (C10_success_frame stWitness "hi" (by decide) (by decide)).2.2.1,
   (C10_success_frame stWitness "hi" (by decide) (by decide)).2.2.2⟩

set_option maxRecDepth 4096 in
/-- Counterexample for C3: a batch over capacity containing an invalid file
adds zero images, but emits no notification and surfaces the capacity reason
rather than the first per-file failure reason. -/
theorem C3_counterexample :
    (∃ f ∈ overCapacityBatch, validateFile f ≠ none)
    ∧ (handleFiles { images := [], uploadError := none } seqId overCapacityBatch).1.images = []
    ∧ (handleFiles { images := [], uploadError := none } seqId overCapacityBatch).2 = []
    ∧ (handleFiles { images := [], uploadError := none } seqId overCapacityBatch).1.uploadError
        = some "Can only upload 4 more images"
    ∧ (handleFiles { images := [], uploadError := none } seqId overCapacityBatch).1.uploadError
        ≠ some "a.txt is not a valid image file" := by
  decide

/-- C3 (amended): for every batch within remaining capacity in which at least
one file fails validation, zero images are added, the valid files are
discarded, only the first failure reason is surfaced, and one notification
summarizes the failure count. -/
theorem C3_batch_all_or_nothing (st : IntakeState) (freshId : Nat → String)
    (files : List CandidateFile)
    (hcap : (files.length : Int) ≤ (maxImages : Int) - (st.images.length : Int))
    (hbad : ∃ f ∈ files, validateFile f ≠ none) :
    (handleFiles st freshId files).1.images = st.images
    ∧ (handleFiles st freshId files).1.uploadError = (batchErrors files).head?
    ∧ (handleFiles st freshId files).2 =
        [{ title := "Upload Error",
           description := toString (batchErrors files).length ++ " file"
             ++ (if (batchErrors files).length ≠ 1 then "s" else "")
             ++ " could not be uploaded" }] := by
  obtain ⟨f, hf, hv⟩ := hbad
  have hne := batchErrors_ne_of_invalid hf hv
  have he := handleFiles_err st freshId files (not_lt.mpr hcap) hne
  exact ⟨by rw [he], by rw [he], by rw [he]⟩

set_option maxRecDepth 4096 in
/-- Witness for C3 at a two-file batch whose first member is invalid. -/
theorem C3_batch_all_or_nothing_witness :
    (handleFiles { images := [], uploadError := none } seqId mixedBatch).1.images = []
    ∧ (handleFiles { images := [], uploadError := none } seqId mixedBatch).1.uploadError
        = (batchErrors mixedBatch).head?
    ∧ (handleFiles { images := [], uploadError := none } seqId mixedBatch).2 =
        [{ title := "Upload Error",
           description := toString (batchErrors mixedBatch).length ++ " file"
             ++ (if (batchErrors mixedBatch).length ≠ 1 then "s" else "")
             ++ " could not be uploaded" }] := by
  exact C3_batch_all_or_nothing { images := [], uploadError := none } seqId mixedBatch
    (by decide) (by decide)

/-- C4: a batch whose count exceeds the remaining capacity is rejected whole,
the active set is unchanged, the capacity-exceeded reason is surfaced, and no
notification is emitted, regardless of individual file validity. -/
theorem C4_capacity_rejected (st : IntakeState) (freshId : Nat → String)
    (files : List CandidateFile)
    (h : (files.length : Int) > (maxImages : Int) - (st.images.length : Int)) :
    handleFiles st freshId files =
      ({ st with
          uploadError := some (capacityMsg ((maxImages : Int) - (st.images.length : Int))) },
       [])
    ∧ (handleFiles st freshId files).1.images = st.images
    ∧ (handleFiles st freshId files).2 = [] := by
  have he := handleFiles_over st freshId files h
  exact ⟨he, by rw [he], by rw [he]⟩

set_option maxRecDepth 4096 in
/-- Witness for C4 at a five-file batch of individually valid files. -/
theorem C4_capacity_rejected_witness :
    handleFiles { images := [], uploadError := none } seqId fivePngBatch
      = ({ images := [], uploadError := some "Can only upload 4 more images" }, []) := by
  have h := (C4_capacity_rejected { images := [], uploadError := none } seqId fivePngBatch
    (by decide)).1
  rw [h]
  decide

/-- C5: a batch within remaining capacity in which every file validates and
encodes successfully is accepted whole: the new active set is the old one
followed by one image per file in order, so its cardinality grows by the
batch size. -/
theorem C5_batch_accept_all (st : IntakeState) (freshId : Nat → String)
    (files : List CandidateFile)
    (hcap : (files.length : Int) ≤ (maxImages : Int) - (st.images.length : Int))
    (hok : ∀ f ∈ files, validateFile f = none ∧ f.encoded ≠ none) :
    (handleFiles st freshId files).1.images.map (fun img => img.name)
        = st.images.map (fun img => img.name) ++ files.map (fun f => f.name)
    ∧ (handleFiles st freshId files).1.images.length = st.images.length + files.length := by
  have herr : batchErrors files = [] := batchErrors_nil_of_ok hok
  by_cases hne : files = []
  · subst hne
    have he := handleFiles_empty st freshId (not_lt.mpr hcap)
    constructor
    · rw [he]; simp
    · rw [he]; simp
  · have he := handleFiles_ok st freshId files (not_lt.mpr hcap) herr hne
    constructor
    · rw [he]
      show (st.images ++ (batchResult freshId files).1).map (fun img => img.name) = _
      rw [List.map_append, batchResult_names freshId files herr]
    · rw [he]
      show (st.images ++ (batchResult freshId files).1).length = _
      rw [List.length_append, batchResult_length freshId files herr]

set_option maxRecDepth 4096 in
/-- Witness for C5 at a two-file all-valid batch from the empty state. -/
theorem C5_batch_accept_all_witness :
    (handleFiles { images := [], uploadError := none } seqId twoPngBatch).1.images.map
        (fun img => img.name) = ["p1.png", "p2.png"]
    ∧ (handleFiles { images := [], uploadError := none } seqId twoPngBatch).1.images.length = 2 := by
  have h := C5_batch_accept_all { images := [], uploadError := none } seqId twoPngBatch
    (by decide) (by decide)
  constructor
  · rw [h.1]
    decide
  · rw [h.2]
    decide

/-- C6: a POST request whose query is absent or empty, or whose images list is
absent or empty, gets the 400 error response and the provider is not invoked. -/
theorem C6_bad_request (req : AnalyzeRequest) (provider : ProviderResult)
    (h : req.query = none ∨ req.query = some "" ∨ req.images = none ∨ req.images = some []) :
    POST (some req) provider = ((400, ApiBody.error "Query and images are required"), false) := by
  obtain ⟨q, imgs⟩ := req
  cases q with
  | none =>
    cases imgs with
    | none => rfl
    | some l => rfl
  | some qs =>
    cases imgs with
    | none => rfl
    | some l =>
      have hcond : qs = "" ∨ l = [] := by
        rcases h with h | h | h | h
        · exact absurd h (by simp)
        · simp at h; exact Or.inl h
        · exact absurd h (by simp)
        · simp at h; exact Or.inr h
      show (if qs = "" ∨ l = [] then ((400, ApiBody.error "Query and images are required"), false)
            else _) = _
      rw [if_pos hcond]

/-- Witness for C6 at an empty images list. -/
theorem C6_bad_request_witness :
    POST (some { query := some "What colors?", images := some [] }) (ProviderResult.ok "x")
      = ((400, ApiBody.error "Query and images are required"), false) :=
  C6_bad_request { query := some "What colors?", images := some [] } (ProviderResult.ok "x")
    (by decide)

/-- C7: on a well-formed request, a provider failure is not propagated: the
endpoint returns 200 with the deterministic fallback text for the query and
image count, in exactly the success shape a real model answer would have. -/
theorem C7_fallback_on_failure (q : String) (imgs : List ImageRef) (e : String)
    (hq : q ≠ "") (hi : imgs ≠ []) :
    POST (some { query := some q, images := some imgs }) (ProviderResult.failure e)
      = ((200, ApiBody.response (generateFallbackResponse q imgs.length)), true)
    ∧ POST (some { query := some q, images := some imgs }) (ProviderResult.failure e)
      = POST (some { query := some q, images := some imgs })
          (ProviderResult.ok (generateFallbackResponse q imgs.length)) := by
  have h1 : POST (some { query := some q, images := some imgs }) (ProviderResult.failure e)
      = ((200, ApiBody.response (generateFallbackResponse q imgs.length)), true) := by
    show (if q = "" ∨ imgs = [] then _ else _) = _
    rw [if_neg (by simp [hq, hi])]
  have h2 : POST (some { query := some q, images := some imgs })
        (ProviderResult.ok (generateFallbackResponse q imgs.length))
      = ((200, ApiBody.response (generateFallbackResponse q imgs.length)), true) := by
    show (if q = "" ∨ imgs = [] then _ else _) = _
    rw [if_neg (by simp [hq, hi])]
  exact ⟨h1, by rw [h1, h2]⟩

set_option maxRecDepth 4096 in
/-- Witness for C7 at the colors query with one image and a thrown provider. -/
theorem C7_fallback_on_failure_witness :
    POST (some { query := some "What colors?", images := some [{ url := "u", name := "n" }] })
        (ProviderResult.failure "boom")
      = ((200, ApiBody.response (generateFallbackResponse "What colors?" 1)), true) :=
  (C7_fallback_on_failure "What colors?" [{ url := "u", name := "n" }] "boom"
    (by decide) (by decide)).1

/-- C8: starting from the empty active set, any sequence of Image Intake
operations leaves at most 4 images, each of byte size at most 10 MiB. -/
theorem C8_active_set_invariant (ops : List IntakeOp) :
    (runOps ops { images := [], uploadError := none }).images.length ≤ 4
    ∧ ∀ img ∈ (runOps ops { images := [], uploadError := none }).images,
        img.fileSize ≤ 10 * 1024 * 1024 := by
  have h0 : IntakeInv { images := [], uploadError := none } := by
    constructor
    · simp
    · intro img hm
      simp at hm
  exact runOps_inv ops { images := [], uploadError := none } h0

/-- C9: removal never reorders the remaining images; when the identifier
occurs exactly once the count drops by exactly one, and when it does not
occur the active set is unchanged. -/
theorem C9_remove_by_identifier (st : IntakeState) (id : String) :
    List.Sublist (removeImage st id).1.images st.images
    ∧ (st.images.countP (fun img => img.id == id) = 1 →
        (removeImage st id).1.images.length + 1 = st.images.length)
    ∧ (st.images.countP (fun img => img.id == id) = 0 →
        (removeImage st id).1.images = st.images) := by
  refine ⟨?_, ?_, ?_⟩
  · show List.Sublist (st.images.filter (fun img => !(img.id == id))) st.images
    exact List.filter_sublist _
  · intro h1
    have hc := length_filter_not_add_countP st.images (fun img => img.id == id)
    show (st.images.filter (fun img => !(img.id == id))).length + 1 = st.images.length
    omega
  · intro h0
    show st.images.filter (fun img => !(img.id == id)) = st.images
    apply List.filter_eq_self.mpr
    intro a ha
    have hz := List.countP_eq_zero.mp h0 a ha
    cases hb : (a.id == id) with
    | true => exact absurd hb hz
    | false => simp [hb]

/-- Witness for C9 at a one-image state, removing the present identifier and
then an absent one. -/
theorem C9_remove_by_identifier_witness :
    (stOneImage.images.countP (fun img => img.id == "a") = 1
      ∧ (removeImage stOneImage "a").1.images.length + 1 = stOneImage.images.length)
    ∧ (stOneImage.images.countP (fun img => img.id == "b") = 0
      ∧ (removeImage stOneImage "b").1.images = stOneImage.images) :=
  ⟨⟨by decide, (C9_remove_by_identifier stOneImage "a").2.1 (by decide)⟩,
   ⟨by decide, (C9_remove_by_identifier stOneImage "b").2.2 (by decide)⟩⟩
